import Mathlib

/-!
# Verification of Bella's response-production core

Shallow embedding of the response-production state machine of the Bella
repository (`src/core.js`) and of the WAV audio encoder
(`convertFloat32ArrayToWav` in the main script), together with proofs of
the specified properties.

Modelling conventions:
* JS strings are modelled by Lean `String`; the string operations used by
  the source (`includes`, `replace` with a string pattern — which removes
  the first occurrence, `trim`, `length`, falsiness of `""`) are defined
  below with those JS semantics.  Whitespace is modelled by
  `Char.isWhitespace` (space, tab, CR, LF), which covers every character
  appearing in this code base.
* Asynchronous collaborator calls that "may fail" (the cloud `chat` call,
  the local generation call) are modelled by `Except Unit String`
  outcomes supplied by an environment (`Env`): one outcome per potential
  call site, in call order.  `Math.random`-based pool selection is
  modelled by an index into the pool, uniform over `Fin pool.length`.
* The cloud-API collaborator (`cloudAPI.js`) is imported by
  `src/core.js` but its source is not part of the examined sources, so it
  is modelled from the spec (§6) as an abstract state machine
  `CloudModel σ` exposing exactly the operations the core calls.
* Float32 audio samples are modelled by `ℚ`: every operation the encoder
  performs on them (clamp to [-1,1], multiply by 32767, truncate toward
  zero as JS `DataView.setInt16` does) is exact on the rationals, and is
  exact in the double-precision arithmetic of the source for every
  float32 input (32767 · m with a 24-bit mantissa m fits a double), so
  nothing is lost by this embedding.
-/

namespace Bella

/-! ## String helpers with JavaScript semantics -/

/-- Remove the first (leftmost) occurrence of `pat` from `s`, as JS
`s.replace(pat, '')` does for a string pattern.  If `pat` does not occur,
`s` is returned unchanged. -/
def removeFirstL (pat : List Char) : List Char → List Char
  | [] => []
  | c :: rest =>
    if pat.isPrefixOf (c :: rest) then (c :: rest).drop pat.length
    else c :: removeFirstL pat rest

/-- `pat` occurs contiguously inside the list. -/
def hasInfixL (pat : List Char) : List Char → Bool
  | [] => pat.isPrefixOf []
  | c :: rest => pat.isPrefixOf (c :: rest) || hasInfixL pat rest

/-- JS `s.includes(pat)`: `pat` occurs contiguously inside `s`. -/
def strIncludes (s pat : String) : Bool :=
  hasInfixL pat.toList s.toList

/-- JS `s.replace(pat, '')` for a plain string pattern: delete the first
occurrence of `pat`. -/
def strRemoveFirst (pat s : String) : String :=
  String.mk (removeFirstL pat.toList s.toList)

/-- JS `s.trim()`: drop whitespace from both ends. -/
def strTrim (s : String) : String :=
  String.mk (((s.toList.dropWhile Char.isWhitespace).reverse.dropWhile
    Char.isWhitespace).reverse)

/-- A reply is degenerate when it is empty, exactly `"."`, or
whitespace-only (spec §3, glossary).  `nonDegenerate` is its negation. -/
def nonDegenerate (s : String) : Prop :=
  s ≠ "" ∧ s ≠ "." ∧ strTrim s ≠ ""

instance (s : String) : Decidable (nonDegenerate s) := by
  unfold nonDegenerate; infer_instance

/-! ## Data model -/

/-- The decoding parameters passed to the local generation call
(`src/core.js` lines 116–123). -/
structure GenParams where
  max_new_tokens : Nat
  temperature : ℚ
  top_k : Nat
  top_p : ℚ
  do_sample : Bool
  repetition_penalty : ℚ
  deriving Repr, DecidableEq

/-- Observable backend calls made during one `think` invocation:
a cloud `chat` call with the prompt it sends, or a local generation call
with its prompt and decoding parameters. -/
inductive Event where
  | cloudChat (prompt : String)
  | localGen (prompt : String) (params : GenParams)
  deriving Repr, DecidableEq

/-- Modelled from the spec: the external cloud-API collaborator
(`cloudAPI.js` is imported by `src/core.js` but absent from the examined
sources).  Spec §6 gives its interface: `isConfigured() -> boolean`,
`switchProvider(name) -> boolean`, `setAPIKey(provider, key) -> boolean`,
`clearHistory() -> void`; its internal state is abstract (`σ`).  The
outcome of the asynchronous `chat` call is supplied per-call by `Env`. -/
structure CloudModel (σ : Type) where
  isConfigured : σ → Bool
  switchProvider : σ → String → Bool × σ
  setAPIKey : σ → String → String → Bool × σ
  clearHistory : σ → σ

/-- The mutable state of a `BellaAI` instance (`src/core.js` constructor):
`useCloudAPI` (default `false`), `currentMode` (default `"casual"`),
whether `this.llm` loaded, and the cloud collaborator's abstract state. -/
structure BellaAI (σ : Type) where
  useCloudAPI : Bool
  currentMode : String
  llmLoaded : Bool
  cloudState : σ

/-! ## Fixed strings of the source -/

/-- The placeholder returned by `thinkWithLocalModel` when no LLM is
loaded (`src/core.js` line 109). -/
def stillLearningMsg : String :=
  "I'm still learning how to think, please wait a moment..."

/-- The fixed pool of natural replacement responses
(`src/core.js` lines 135–141). -/
def naturalResponses : List String :=
  ["Hi! I'm doing great, thanks for asking! How about you?",
   "Hello there! I'm Bella, nice to meet you! What's on your mind?",
   "Hey! I'm here and ready to chat. What would you like to talk about?",
   "Hi! I'm feeling wonderful today. How can I help you?",
   "Hello! Thanks for saying hi. I'm doing well - how are you doing?"]

/-- The fixed pool of apology strings used by `getErrorResponse`
(`src/core.js` lines 167–172). -/
def errorResponses : List String :=
  ["Sorry, I'm a bit confused right now, let me reorganize my thoughts...",
   "Hmm... let me think about this more, please wait a moment.",
   "My thoughts are a bit complex, I need time to organize them.",
   "Let me reorganize and get back to you, just a moment."]

/-- The fixed local prompt built by `thinkWithLocalModel`
(`src/core.js` line 113).  Note that it does not depend on the current
mode. -/
def localEnglishPrompt (prompt : String) : String :=
  "You are Bella, a friendly AI assistant. Please respond naturally and conversationally in English. User says: \""
    ++ prompt ++ "\"\nBella:"

/-- `enhancePromptForMode` (`src/core.js` lines 150–163): mode-specific
templates for the local backend, a single fixed template for the cloud
backend; an unknown mode falls back to the casual template
(`englishPrompts[this.currentMode] || englishPrompts.casual`). -/
def enhancePromptForMode (mode prompt : String) (isLocal : Bool) : String :=
  if isLocal then
    if mode = "casual" then
      "You are Bella, a friendly AI. Have a natural conversation in English. User: \""
        ++ prompt ++ "\"\nBella:"
    else if mode = "assistant" then
      "You are Bella, a helpful AI assistant. Respond naturally in English. User: \""
        ++ prompt ++ "\"\nBella:"
    else if mode = "creative" then
      "You are Bella, a creative AI companion. Chat naturally in English. User: \""
        ++ prompt ++ "\"\nBella:"
    else
      "You are Bella, a friendly AI. Have a natural conversation in English. User: \""
        ++ prompt ++ "\"\nBella:"
  else
    "You are Bella, a friendly AI assistant. Please respond naturally and conversationally in English.\n\nUser: "
      ++ prompt ++ "\nBella:"

/-- The decoding parameters of the local generation call
(`src/core.js` lines 117–122). -/
def bellaGenParams : GenParams :=
  { max_new_tokens := 80, temperature := 0.8, top_k := 40, top_p := 0.9,
    do_sample := true, repetition_penalty := 1.2 }

/-! ## The response-production state machine -/

/-- Per-invocation oracle: the outcome of the cloud `chat` call (if one is
made), the outcomes of the first and second local generation calls (if
made, in order), and the random pool indices drawn by the two possible
replacement selections and by `getErrorResponse`. -/
structure Env where
  cloudOutcome : Except Unit String
  localOutcome1 : Except Unit String
  localOutcome2 : Except Unit String
  rnd1 : Fin naturalResponses.length
  rnd2 : Fin naturalResponses.length
  rndErr : Fin errorResponses.length

/-- The response clean-up of `thinkWithLocalModel`
(`src/core.js` lines 128–143): if the generated text contains the local
prompt, delete its first occurrence and trim (otherwise leave the text
untouched — in particular untrimmed); then, if the result is empty,
shorter than 3 characters, exactly `"."`, or whitespace-only, replace it
with the pool entry selected by the random index. -/
def cleanLocal (ep gen : String) (r : Fin naturalResponses.length) : String :=
  let response := if strIncludes gen ep then strTrim (strRemoveFirst ep gen) else gen
  if response = "" ∨ response.length < 3 ∨ response = "." ∨ strTrim response = "" then
    naturalResponses.get r
  else
    response

/-- `thinkWithLocalModel` (`src/core.js` lines 107–147): placeholder when
no LLM is loaded; otherwise one generation call with `bellaGenParams` on
the fixed local prompt, whose outcome is either an exception (propagated)
or a generated text which is cleaned by `cleanLocal`. -/
def thinkWithLocalModel (llmLoaded : Bool) (prompt : String)
    (outcome : Except Unit String) (r : Fin naturalResponses.length) :
    Except Unit String × List Event :=
  if llmLoaded = false then
    (.ok stillLearningMsg, [])
  else
    match outcome with
    | .error u => (.error u, [.localGen (localEnglishPrompt prompt) bellaGenParams])
    | .ok gen =>
      (.ok (cleanLocal (localEnglishPrompt prompt) gen r),
       [.localGen (localEnglishPrompt prompt) bellaGenParams])

/-- `think` (`src/core.js` lines 73–98).  The `try` block takes the cloud
path iff `useCloudAPI && isConfigured()`, else the local path; the
`catch` block retries the local path once iff `useCloudAPI` is true, and
finally returns `getErrorResponse()`.  The function is total: `think`
always resolves to a string (it never rethrows). -/
def think {σ : Type} (cm : CloudModel σ) (st : BellaAI σ) (env : Env)
    (prompt : String) : String × List Event :=
  if st.useCloudAPI && cm.isConfigured st.cloudState then
    match env.cloudOutcome with
    | .ok s => (s, [.cloudChat (enhancePromptForMode st.currentMode prompt false)])
    | .error _ =>
      match thinkWithLocalModel st.llmLoaded prompt env.localOutcome1 env.rnd1 with
      | (.ok s, evs) =>
        (s, .cloudChat (enhancePromptForMode st.currentMode prompt false) :: evs)
      | (.error _, evs) =>
        (errorResponses.get env.rndErr,
         .cloudChat (enhancePromptForMode st.currentMode prompt false) :: evs)
  else
    match thinkWithLocalModel st.llmLoaded prompt env.localOutcome1 env.rnd1 with
    | (.ok s, evs) => (s, evs)
    | (.error _, evs) =>
      if st.useCloudAPI then
        match thinkWithLocalModel st.llmLoaded prompt env.localOutcome2 env.rnd2 with
        | (.ok s, evs2) => (s, evs ++ evs2)
        | (.error _, evs2) => (errorResponses.get env.rndErr, evs ++ evs2)
      else
        (errorResponses.get env.rndErr, evs)

/-- The valid chat modes (`src/core.js` line 179). -/
def chatModes : List String := ["casual", "assistant", "creative"]

/-- `setChatMode` (`src/core.js` lines 178–184): the JS
`['casual', 'assistant', 'creative'].includes(mode)` test is list
membership. -/
def setChatMode {σ : Type} (st : BellaAI σ) (mode : String) : Bool × BellaAI σ :=
  if mode ∈ chatModes then (true, { st with currentMode := mode })
  else (false, st)

/-- `switchProvider` (`src/core.js` lines 187–198): `"local"` always
succeeds and clears `useCloudAPI`; any other name delegates to the cloud
collaborator and sets `useCloudAPI` only on a successful attempt. -/
def switchProvider {σ : Type} (cm : CloudModel σ) (st : BellaAI σ)
    (provider : String) : Bool × BellaAI σ :=
  if provider = "local" then
    (true, { st with useCloudAPI := false })
  else
    let r := cm.switchProvider st.cloudState provider
    (r.1, { st with useCloudAPI := if r.1 then true else st.useCloudAPI,
                    cloudState := r.2 })

/-- `setAPIKey` (`src/core.js` lines 201–203): pure delegation to the
cloud collaborator. -/
def setAPIKey {σ : Type} (cm : CloudModel σ) (st : BellaAI σ)
    (provider apiKey : String) : Bool × BellaAI σ :=
  let r := cm.setAPIKey st.cloudState provider apiKey
  (r.1, { st with cloudState := r.2 })

/-- `clearHistory` (`src/core.js` lines 206–208): pure delegation to the
cloud collaborator. -/
def clearHistory {σ : Type} (cm : CloudModel σ) (st : BellaAI σ) : BellaAI σ :=
  { st with cloudState := cm.clearHistory st.cloudState }

/-! ## Concrete instances used for counterexamples and witnesses -/

/-- A cloud collaborator over trivial state with constant answers. -/
def constCloud (cfg swOk keyOk : Bool) : CloudModel Unit :=
  { isConfigured := fun _ => cfg,
    switchProvider := fun _ _ => (swOk, ()),
    setAPIKey := fun _ _ _ => (keyOk, ()),
    clearHistory := fun _ => () }

/-- A concrete core state over trivial cloud state. -/
def mkState (cloud : Bool) (mode : String) (llm : Bool) : BellaAI Unit :=
  ⟨cloud, mode, llm, ()⟩

/-- A concrete oracle with all random indices 0. -/
def mkEnv (c l1 l2 : Except Unit String) : Env :=
  ⟨c, l1, l2, ⟨0, by decide⟩, ⟨0, by decide⟩, ⟨0, by decide⟩⟩

/-- Index 0 into the natural-response pool. -/
def idx0 : Fin naturalResponses.length := ⟨0, by decide⟩

/-! ## The WAV audio encoder

`convertFloat32ArrayToWav` (main script, lines 331–366) writes a 44-byte
RIFF/WAVE header followed by one little-endian signed 16-bit word per
sample into an `ArrayBuffer` of size `44 + 2·N`.  The embedding produces
the same byte sequence as a `List ℕ` of byte values. -/

/-- Truncation toward zero, the conversion JS `DataView.setInt16` applies
to its numeric argument (`ToIntegerOrInfinity`). -/
def ratTrunc (x : ℚ) : ℤ :=
  if 0 ≤ x then ⌊x⌋ else ⌈x⌉

/-- `Math.max(-1, Math.min(1, s))` (line 360). -/
def clampSample (x : ℚ) : ℚ :=
  max (-1) (min 1 x)

/-- The integer a sample is encoded to: clamp, scale by `0x7FFF = 32767`,
truncate (line 361). -/
def sampleToInt (x : ℚ) : ℤ :=
  ratTrunc (clampSample x * 32767)

/-- The two bytes `setInt16(·, i, true)` stores: the value modulo 2¹⁶,
little-endian. -/
def int16Bytes (i : ℤ) : List ℕ :=
  [(i % 65536).toNat % 256, (i % 65536).toNat / 256]

/-- The two bytes written for one sample. -/
def sampleBytes (x : ℚ) : List ℕ :=
  int16Bytes (sampleToInt x)

/-- The two bytes `setUint16(·, n, true)` stores (value modulo 2¹⁶,
little-endian). -/
def u16le (n : ℕ) : List ℕ :=
  [n % 256, n / 256 % 256]

/-- The four bytes `setUint32(·, n, true)` stores (value modulo 2³²,
little-endian). -/
def u32le (n : ℕ) : List ℕ :=
  [n % 256, n / 256 % 256, n / 65536 % 256, n / 16777216 % 256]

/-- `writeString`: one byte per character, `charCodeAt` (lines 337–341). -/
def tagBytes (s : String) : List ℕ :=
  s.toList.map Char.toNat

/-- `convertFloat32ArrayToWav(audioData, sampleRate)`: the full output
buffer, header fields in source order (lines 343–363). -/
def convertFloat32ArrayToWav (audioData : List ℚ) (sampleRate : ℕ) : List ℕ :=
  tagBytes "RIFF" ++ u32le (36 + audioData.length * 2) ++
  tagBytes "WAVE" ++ tagBytes "fmt " ++
  u32le 16 ++ u16le 1 ++ u16le 1 ++ u32le sampleRate ++
  u32le (sampleRate * 2) ++ u16le 2 ++ u16le 16 ++
  tagBytes "data" ++ u32le (audioData.length * 2) ++
  (audioData.map sampleBytes).flatten

/-- Independent little-endian decoder used to state the layout claims:
the value of a byte list read least-significant byte first. -/
def leVal (l : List ℕ) : ℕ :=
  l.foldr (fun b acc => b + 256 * acc) 0

/-- Independent decoder of a little-endian signed 16-bit word. -/
def decodeI16 (l : List ℕ) : ℤ :=
  let u := leVal l
  if u < 32768 then (u : ℤ) else (u : ℤ) - 65536

end Bella

namespace Bella

/-! ## Shared helper lemmas -/

/-- Every entry of the natural-response pool is non-degenerate. -/
lemma naturalResponses_nonDegenerate :
    ∀ r : Fin naturalResponses.length, nonDegenerate (naturalResponses.get r) := by
  decide

/-- Every entry of the apology pool is non-degenerate. -/
lemma errorResponses_nonDegenerate :
    ∀ r : Fin errorResponses.length, nonDegenerate (errorResponses.get r) := by
  decide

/-- The "still learning" placeholder is non-degenerate. -/
lemma stillLearningMsg_nonDegenerate : nonDegenerate stillLearningMsg := by
  decide

/-- The clean-up step of the local path always yields a non-degenerate
string: a result that escapes replacement is non-empty, not `"."` and
not whitespace-only, and every replacement pool entry is
non-degenerate. -/
lemma cleanLocal_nonDegenerate (ep gen : String) (r : Fin naturalResponses.length) :
    nonDegenerate (cleanLocal ep gen r) := by
  unfold cleanLocal
  dsimp only
  split
  · split
    · exact naturalResponses_nonDegenerate r
    · next h =>
      push_neg at h
      exact ⟨h.1, h.2.2.1, h.2.2.2⟩
  · split
    · exact naturalResponses_nonDegenerate r
    · next h =>
      push_neg at h
      exact ⟨h.1, h.2.2.1, h.2.2.2⟩

/-- Any successful result of the local path is non-degenerate. -/
lemma thinkWithLocalModel_ok_nonDegenerate (llm : Bool) (p : String)
    (o : Except Unit String) (r : Fin naturalResponses.length) (s : String)
    (evs : List Event)
    (h : thinkWithLocalModel llm p o r = (.ok s, evs)) : nonDegenerate s := by
  unfold thinkWithLocalModel at h
  split at h
  · injection h with h1 h2
    injection h1 with h1
    exact h1 ▸ stillLearningMsg_nonDegenerate
  · cases o with
    | error u => simp at h
    | ok gen =>
      injection h with h1 h2
      injection h1 with h1
      exact h1 ▸ cleanLocal_nonDegenerate _ _ _

end Bella

namespace Bella

/-! ## Claim C6: setChatMode validation -/

/-- C6: `setChatMode(mode)` returns success and mutates the current mode
if and only if `mode` is one of casual, assistant, creative; for any
other value it returns failure and the whole state (in particular the
current mode) is unchanged. -/
theorem c6_setChatMode {σ : Type} (st : BellaAI σ) (mode : String) :
    ((setChatMode st mode).1 = true ↔
      mode = "casual" ∨ mode = "assistant" ∨ mode = "creative") ∧
    ((setChatMode st mode).1 = true →
      (setChatMode st mode).2 = { st with currentMode := mode }) ∧
    ((setChatMode st mode).1 = false → (setChatMode st mode).2 = st) := by
  by_cases h : mode ∈ chatModes
  · have hm : mode = "casual" ∨ mode = "assistant" ∨ mode = "creative" := by
      simpa [chatModes] using h
    simp [setChatMode, h, hm]
  · have hm : ¬(mode = "casual" ∨ mode = "assistant" ∨ mode = "creative") := by
      simpa [chatModes] using h
    simp [setChatMode, h, hm]

/-- Witness for C6 at a concrete input: switching to `"assistant"`
succeeds and sets the mode field. -/
theorem c6_setChatMode_witness :
    (setChatMode (mkState false "casual" true) "assistant").2 =
      mkState false "assistant" true :=
  (c6_setChatMode (mkState false "casual" true) "assistant").2.1 (by decide)

/-! ## Claim C7: switchProvider -/

/-- C7: `switchProvider("local")` always succeeds and clears cloud usage;
for any other provider name it returns the collaborator's configuration
result, flips `useCloudAPI` to `true` exactly on success, and leaves
`useCloudAPI` (and the rest of the core state) unchanged on failure. -/
theorem c7_switchProvider {σ : Type} (cm : CloudModel σ) (st : BellaAI σ)
    (provider : String) :
    (switchProvider cm st "local" = (true, { st with useCloudAPI := false })) ∧
    (provider ≠ "local" →
      (switchProvider cm st provider).1 = (cm.switchProvider st.cloudState provider).1 ∧
      ((cm.switchProvider st.cloudState provider).1 = true →
        ((switchProvider cm st provider).2).useCloudAPI = true) ∧
      ((cm.switchProvider st.cloudState provider).1 = false →
        (switchProvider cm st provider).1 = false ∧
        ((switchProvider cm st provider).2).useCloudAPI = st.useCloudAPI) ∧
      ((switchProvider cm st provider).2).currentMode = st.currentMode ∧
      ((switchProvider cm st provider).2).llmLoaded = st.llmLoaded) := by
  constructor
  · simp [switchProvider]
  · intro h
    cases hr : (cm.switchProvider st.cloudState provider).1 <;>
      simp [switchProvider, h, hr]

/-- Witness for C7 at a concrete input: a provider whose configuration
attempt reports `false` leaves `useCloudAPI` at its prior value. -/
theorem c7_switchProvider_witness :
    ((switchProvider (constCloud true false true) (mkState false "casual" true)
        "cloud-provider-x").2).useCloudAPI = false := by
  have h := (c7_switchProvider (constCloud true false true)
    (mkState false "casual" true) "cloud-provider-x").2 (by decide)
  exact (h.2.2.1 (by decide)).2

/-! ## Claim C10: setAPIKey / clearHistory frame -/

/-- C10: `setAPIKey` and `clearHistory` only delegate to the cloud
collaborator: they leave `currentMode`, `useCloudAPI` (the backend
selection) and the loaded-model flag unchanged; in particular a
successful `setAPIKey` does not by itself switch the backend to cloud. -/
theorem c10_setAPIKey_clearHistory_frame {σ : Type} (cm : CloudModel σ)
    (st : BellaAI σ) (provider key : String) :
    ((setAPIKey cm st provider key).2).currentMode = st.currentMode ∧
    ((setAPIKey cm st provider key).2).useCloudAPI = st.useCloudAPI ∧
    ((setAPIKey cm st provider key).2).llmLoaded = st.llmLoaded ∧
    (clearHistory cm st).currentMode = st.currentMode ∧
    (clearHistory cm st).useCloudAPI = st.useCloudAPI ∧
    (clearHistory cm st).llmLoaded = st.llmLoaded ∧
    ((setAPIKey cm st provider key).1 = true →
      ((setAPIKey cm st provider key).2).useCloudAPI = st.useCloudAPI) := by
  simp [setAPIKey, clearHistory]

/-- Witness for C10 at a concrete input: a successful `setAPIKey` leaves
`useCloudAPI` at `false`. -/
theorem c10_setAPIKey_clearHistory_frame_witness :
    ((setAPIKey (constCloud false true true) (mkState false "casual" true)
        "cloud-provider-x" "key-123").2).useCloudAPI = false :=
  (c10_setAPIKey_clearHistory_frame (constCloud false true true)
    (mkState false "casual" true) "cloud-provider-x" "key-123").2.2.2.2.2.2 (by decide)

end Bella

namespace Bella

/-! ## Claim C1: response sanitization -/

/-- C1 as stated is false: on the cloud success path `think` returns the
collaborator's `chat` text verbatim, with no sanitization
(`src/core.js` lines 101–104).  At a configured cloud backend whose
`chat` resolves to `"."`, `think` resolves to `"."`. -/
theorem c1_counterexample :
    (think (constCloud true true true) (mkState true "casual" true)
        (mkEnv (.ok ".") (.ok "x") (.ok "x")) "hello").1 = "." ∧
    ¬ nonDegenerate "." := by
  exact ⟨by decide, by decide⟩

/-- C1 amended: `think` always resolves to a string (the embedding is a
total function — no path rethrows), and the result is non-empty, not
`"."` and not whitespace-only on every path except the cloud success
path, where the result is exactly the cloud collaborator's `chat` text,
unsanitized. -/
theorem c1_sanitization {σ : Type} (cm : CloudModel σ) (st : BellaAI σ)
    (env : Env) (prompt : String) :
    ((st.useCloudAPI && cm.isConfigured st.cloudState) = false →
      nonDegenerate (think cm st env prompt).1) ∧
    (∀ u : Unit, env.cloudOutcome = .error u →
      nonDegenerate (think cm st env prompt).1) ∧
    (∀ s : String, (st.useCloudAPI && cm.isConfigured st.cloudState) = true →
      env.cloudOutcome = .ok s → (think cm st env prompt).1 = s) := by
  refine ⟨?_, ?_, ?_⟩
  · intro hc
    unfold think
    rw [hc]
    simp only [Bool.false_eq_true, if_false]
    rcases h1 : thinkWithLocalModel st.llmLoaded prompt env.localOutcome1 env.rnd1 with
      ⟨o1, evs1⟩
    cases o1 with
    | ok s => simpa using thinkWithLocalModel_ok_nonDegenerate _ _ _ _ _ _ h1
    | error v =>
      cases hcu : st.useCloudAPI with
      | false => simpa [hcu] using errorResponses_nonDegenerate env.rndErr
      | true =>
        rcases h2 : thinkWithLocalModel st.llmLoaded prompt env.localOutcome2 env.rnd2 with
          ⟨o2, evs2⟩
        cases o2 with
        | ok s => simpa [hcu, h2] using thinkWithLocalModel_ok_nonDegenerate _ _ _ _ _ _ h2
        | error w => simpa [hcu, h2] using errorResponses_nonDegenerate env.rndErr
  · intro u hu
    unfold think
    cases hc : (st.useCloudAPI && cm.isConfigured st.cloudState) with
    | false =>
      simp only [Bool.false_eq_true, if_false]
      rcases h1 : thinkWithLocalModel st.llmLoaded prompt env.localOutcome1 env.rnd1 with
        ⟨o1, evs1⟩
      cases o1 with
      | ok s => simpa using thinkWithLocalModel_ok_nonDegenerate _ _ _ _ _ _ h1
      | error v =>
        cases hcu : st.useCloudAPI with
        | false => simpa [hcu] using errorResponses_nonDegenerate env.rndErr
        | true =>
          rcases h2 : thinkWithLocalModel st.llmLoaded prompt env.localOutcome2 env.rnd2 with
            ⟨o2, evs2⟩
          cases o2 with
          | ok s => simpa [hcu, h2] using thinkWithLocalModel_ok_nonDegenerate _ _ _ _ _ _ h2
          | error w => simpa [hcu, h2] using errorResponses_nonDegenerate env.rndErr
    | true =>
      rw [hu]
      simp only [if_true]
      rcases h1 : thinkWithLocalModel st.llmLoaded prompt env.localOutcome1 env.rnd1 with
        ⟨o1, evs1⟩
      cases o1 with
      | ok s => simpa using thinkWithLocalModel_ok_nonDegenerate _ _ _ _ _ _ h1
      | error v => simpa using errorResponses_nonDegenerate env.rndErr
  · intro s hc hs
    unfold think
    rw [hc, hs]
    simp

/-- Witness for C1 (amended) at a concrete input: with the local backend
selected the result of `think` is non-degenerate. -/
theorem c1_sanitization_witness :
    nonDegenerate (think (constCloud false true true) (mkState false "casual" true)
      (mkEnv (.ok "x") (.ok ".") (.ok "x")) "").1 :=
  (c1_sanitization (constCloud false true true) (mkState false "casual" true)
    (mkEnv (.ok "x") (.ok ".") (.ok "x")) "").1 (by decide)

/-! ## Claim C2: cloud failure falls back to local exactly once -/

/-- Number of local generation calls recorded in a trace. -/
def countLocalGen (evs : List Event) : Nat :=
  (evs.filter fun e => match e with
    | .localGen _ _ => true
    | .cloudChat _ => false).length

/-- C2: when the cloud backend is selected and configured and the cloud
`chat` call fails, `think` makes exactly one fallback attempt on the
local path (one local generation call when a model is loaded, none
otherwise); if that local attempt also fails the result is drawn from
the fixed apology pool; and `think` still resolves to a string (the
embedding is total — nothing is rethrown to the caller). -/
theorem c2_cloud_failure_fallback {σ : Type} (cm : CloudModel σ) (st : BellaAI σ)
    (env : Env) (prompt : String)
    (h1 : st.useCloudAPI = true) (h2 : cm.isConfigured st.cloudState = true)
    (u : Unit) (h3 : env.cloudOutcome = .error u) :
    think cm st env prompt =
      ((match (thinkWithLocalModel st.llmLoaded prompt env.localOutcome1 env.rnd1).1 with
        | .ok s => s
        | .error _ => errorResponses.get env.rndErr),
       .cloudChat (enhancePromptForMode st.currentMode prompt false) ::
         (thinkWithLocalModel st.llmLoaded prompt env.localOutcome1 env.rnd1).2) ∧
    countLocalGen (think cm st env prompt).2 = (if st.llmLoaded then 1 else 0) ∧
    (∀ v : Unit,
      (thinkWithLocalModel st.llmLoaded prompt env.localOutcome1 env.rnd1).1 = .error v →
      (think cm st env prompt).1 ∈ errorResponses) := by
  cases hl : st.llmLoaded <;> cases ho : env.localOutcome1 <;>
    (refine ⟨?_, ?_, ?_⟩ <;>
      simp [think, thinkWithLocalModel, countLocalGen, h1, h2, h3, hl, ho,
        List.get_mem])

/-- Witness for C2 at a concrete input: configured cloud backend, `chat`
fails, local generation also fails — the result is in the apology
pool. -/
theorem c2_cloud_failure_fallback_witness :
    (think (constCloud true true true) (mkState true "casual" true)
        (mkEnv (.error ()) (.error ()) (.ok "x")) "hi").1 ∈ errorResponses :=
  (c2_cloud_failure_fallback (constCloud true true true) (mkState true "casual" true)
    (mkEnv (.error ()) (.error ()) (.ok "x")) "hi" rfl rfl () rfl).2.2 () rfl

end Bella

namespace Bella

/-! ## Claim C5: cloud-but-unconfigured vs local selected -/

/-- C5 as stated is false: with the cloud backend selected but
unconfigured, a failing first local attempt is retried once (the `catch`
block of `think` tests `useCloudAPI`, not whether the cloud path was
actually taken), whereas with local selected the same failure goes
straight to the apology pool.  The two states below differ only in
`useCloudAPI`, the oracle outcomes are identical, yet the returned texts
differ. -/
theorem c5_counterexample :
    (think (constCloud false true true) (mkState true "casual" true)
        (mkEnv (.error ()) (.error ()) (.ok "All good friends!")) "hi").1 =
      "All good friends!" ∧
    (think (constCloud false true true) (mkState false "casual" true)
        (mkEnv (.error ()) (.error ()) (.ok "All good friends!")) "hi").1 =
      "Sorry, I'm a bit confused right now, let me reorganize my thoughts..." ∧
    ("All good friends!" : String) ≠
      "Sorry, I'm a bit confused right now, let me reorganize my thoughts..." := by
  exact ⟨by decide, by decide, by decide⟩

/-- C5 amended: with cloud selected but unconfigured, `think` first runs
exactly the local path; if that first local attempt succeeds (model
missing included) the result — text and trace — is identical to the
local-selected run; if it fails, the local-selected run returns an
apology immediately while the cloud-selected run makes one further local
attempt and only then falls back to the apology pool. -/
theorem c5_unconfigured_cloud {σ : Type} (cm : CloudModel σ) (st : BellaAI σ)
    (env : Env) (prompt : String)
    (h1 : st.useCloudAPI = true) (h2 : cm.isConfigured st.cloudState = false) :
    (∀ s : String, ∀ evs : List Event,
      thinkWithLocalModel st.llmLoaded prompt env.localOutcome1 env.rnd1 = (.ok s, evs) →
      think cm st env prompt = think cm { st with useCloudAPI := false } env prompt) ∧
    (∀ v : Unit,
      (thinkWithLocalModel st.llmLoaded prompt env.localOutcome1 env.rnd1).1 = .error v →
      think cm { st with useCloudAPI := false } env prompt =
        (errorResponses.get env.rndErr,
         (thinkWithLocalModel st.llmLoaded prompt env.localOutcome1 env.rnd1).2) ∧
      think cm st env prompt =
        ((match (thinkWithLocalModel st.llmLoaded prompt env.localOutcome2 env.rnd2).1 with
          | .ok s => s
          | .error _ => errorResponses.get env.rndErr),
         (thinkWithLocalModel st.llmLoaded prompt env.localOutcome1 env.rnd1).2 ++
           (thinkWithLocalModel st.llmLoaded prompt env.localOutcome2 env.rnd2).2)) := by
  cases hl : st.llmLoaded <;> cases ho1 : env.localOutcome1 <;>
    cases ho2 : env.localOutcome2 <;>
    (constructor <;>
      simp [think, thinkWithLocalModel, h1, h2, hl, ho1, ho2])

/-- Witness for C5 (amended) at a concrete input: a successful first
local attempt makes the cloud-but-unconfigured run equal to the
local-selected run. -/
theorem c5_unconfigured_cloud_witness :
    think (constCloud false true true) (mkState true "casual" true)
        (mkEnv (.ok "x") (.ok "Good to see you!") (.ok "x")) "hi" =
      think (constCloud false true true) (mkState false "casual" true)
        (mkEnv (.ok "x") (.ok "Good to see you!") (.ok "x")) "hi" :=
  (c5_unconfigured_cloud (constCloud false true true) (mkState true "casual" true)
      (mkEnv (.ok "x") (.ok "Good to see you!") (.ok "x")) "hi" rfl rfl).1
    "Good to see you!"
    [.localGen (localEnglishPrompt "hi") bellaGenParams] rfl

end Bella

namespace Bella

/-! ## Claim C3: the local generation call and its sanitization -/

/-- The sanitization as claim C3 words it, for comparison with the code:
strip the echoed prompt **prefix** if present, **always** trim the
surrounding whitespace, and replace a remainder that is empty, shorter
than 3 characters, or exactly a single period by a pool entry. -/
def claimSanitizeLocal (ep gen : String) (r : Fin naturalResponses.length) : String :=
  let s1 := if ep.toList.isPrefixOf gen.toList then
    String.mk (gen.toList.drop ep.toList.length) else gen
  let s2 := strTrim s1
  if s2 = "" ∨ s2.length < 3 ∨ s2 = "." then naturalResponses.get r else s2

/-- C3 as stated is false: the code trims (and strips the prompt) only
when the generated text *contains* the prompt (`src/core.js` lines
129–131).  On the generated text `"  OK  "` — which does not contain the
prompt — the claim's sanitization trims to `"OK"`, finds it shorter than
3 characters and substitutes a pool entry, while the code returns
`"  OK  "` untrimmed. -/
theorem c3_counterexample :
    (thinkWithLocalModel true "hi" (.ok "  OK  ") idx0).1 = .ok "  OK  " ∧
    claimSanitizeLocal (localEnglishPrompt "hi") "  OK  " idx0 =
      "Hi! I'm doing great, thanks for asking! How about you?" ∧
    ("  OK  " : String) ≠ "Hi! I'm doing great, thanks for asking! How about you?" := by
  exact ⟨rfl, by decide, by decide⟩

/-- C3 amended: with a loaded model the local path makes exactly one
generation call, on the fixed local prompt, with decoding parameters
`{max_new_tokens: 80, temperature: 0.8, top_k: 40, top_p: 0.9, sampling
enabled, repetition_penalty: 1.2}`; *when the generated text contains
the prompt* its first occurrence is removed and the result trimmed
(otherwise the text is kept verbatim, untrimmed); and if the resulting
text is empty, shorter than 3 characters, exactly `"."`, or
whitespace-only, it is replaced by the entry of the fixed 5-element
natural-response pool selected by the uniformly random index. -/
theorem c3_local_generation (p gen : String) (r : Fin naturalResponses.length) :
    thinkWithLocalModel true p (.ok gen) r =
      (.ok (cleanLocal (localEnglishPrompt p) gen r),
       [.localGen (localEnglishPrompt p) bellaGenParams]) ∧
    bellaGenParams.max_new_tokens = 80 ∧ bellaGenParams.temperature = 4 / 5 ∧
    bellaGenParams.top_k = 40 ∧ bellaGenParams.top_p = 9 / 10 ∧
    bellaGenParams.do_sample = true ∧ bellaGenParams.repetition_penalty = 6 / 5 ∧
    naturalResponses.length = 5 ∧
    (strIncludes gen (localEnglishPrompt p) = true →
      cleanLocal (localEnglishPrompt p) gen r =
        (if strTrim (strRemoveFirst (localEnglishPrompt p) gen) = "" ∨
            (strTrim (strRemoveFirst (localEnglishPrompt p) gen)).length < 3 ∨
            strTrim (strRemoveFirst (localEnglishPrompt p) gen) = "." ∨
            strTrim (strTrim (strRemoveFirst (localEnglishPrompt p) gen)) = ""
         then naturalResponses.get r
         else strTrim (strRemoveFirst (localEnglishPrompt p) gen))) ∧
    (strIncludes gen (localEnglishPrompt p) = false →
      cleanLocal (localEnglishPrompt p) gen r =
        (if gen = "" ∨ gen.length < 3 ∨ gen = "." ∨ strTrim gen = ""
         then naturalResponses.get r
         else gen)) := by
  refine ⟨rfl, rfl, by norm_num [bellaGenParams], rfl, by norm_num [bellaGenParams],
    rfl, by norm_num [bellaGenParams], rfl, ?_, ?_⟩
  · intro h
    simp [cleanLocal, h]
  · intro h
    simp [cleanLocal, h]

/-- Witness for C3 (amended) at a concrete input: a generated text that
does not contain the prompt and is not degenerate is returned
verbatim. -/
theorem c3_local_generation_witness :
    cleanLocal (localEnglishPrompt "a") "Good to see you!" idx0 = "Good to see you!" := by
  have h := (c3_local_generation "a" "Good to see you!" idx0).2.2.2.2.2.2.2.2.2 (by decide)
  rw [h]
  decide

end Bella

namespace Bella

/-! ## Claim C4: mode-specific fragments in the local prompt -/

/-- C4 fails on the code: `thinkWithLocalModel` builds the fixed
`localEnglishPrompt` (`src/core.js` line 113) and never consults the
current mode — the mode-specific local templates of
`enhancePromptForMode` are dead code (no call site passes
`isLocal = true`).  Concretely: after a successful `setMode("casual")`,
the prompt recorded in the local generation event is the fixed prompt,
which does not contain the casual fragment "have a natural conversation"
(in either capitalization), although the unused casual template does
contain it. -/
theorem c4_mode_ignored :
    (setChatMode (mkState false "casual" true) "casual").1 = true ∧
    (think (constCloud true true true) ((setChatMode (mkState false "casual" true) "casual").2)
        (mkEnv (.ok "x") (.ok "Nice to hear that from you!") (.ok "x")) "hello").2 =
      [.localGen (localEnglishPrompt "hello") bellaGenParams] ∧
    strIncludes (localEnglishPrompt "hello") "have a natural conversation" = false ∧
    strIncludes (localEnglishPrompt "hello") "Have a natural conversation" = false ∧
    strIncludes (enhancePromptForMode "casual" "hello" true)
      "Have a natural conversation" = true := by
  exact ⟨by decide, rfl, by decide, by decide, by decide⟩

end Bella

namespace Bella

/-! ## Helper lemmas for the WAV encoder -/

lemma sampleBytes_length (x : ℚ) : (sampleBytes x).length = 2 := rfl

lemma flatten_sampleBytes_length (l : List ℚ) :
    ((l.map sampleBytes).flatten).length = 2 * l.length := by
  induction l with
  | nil => simp
  | cons a t ih =>
    simp only [List.map_cons, List.flatten_cons, List.length_append,
      sampleBytes_length, List.length_cons, ih]
    ring

/-- Dropping a whole left part plus `n` more elements. -/
lemma drop_append_len {α : Type} (l₁ l₂ : List α) (n : ℕ) :
    (l₁ ++ l₂).drop (l₁.length + n) = l₂.drop n := by
  induction l₁ with
  | nil => simp
  | cons a t ih =>
    simp [Nat.succ_add, ih]

/-- The two bytes of sample `i` sit at offset `2 * i` of the flattened
data chunk. -/
lemma flatten_sampleBytes_get (l : List ℚ) (i : ℕ) (h : i < l.length) :
    (((l.map sampleBytes).flatten).drop (2 * i)).take 2 =
      sampleBytes (l.get ⟨i, h⟩) := by
  induction l generalizing i with
  | nil => simp at h
  | cons a t ih =>
    cases i with
    | zero =>
      rw [Nat.mul_zero, List.drop_zero, List.map_cons, List.flatten_cons]
      rw [List.take_left' (sampleBytes_length a)]
      rfl
    | succ j =>
      have hj : j < t.length := by simpa using h
      have h2 : 2 * (j + 1) = (sampleBytes a).length + 2 * j := by
        rw [sampleBytes_length]; ring
      rw [List.map_cons, List.flatten_cons, h2, drop_append_len]
      exact ih j hj

/-- The encoded integer of any sample stays inside the symmetric 16-bit
range: clamping happens before scaling, so nothing overflows or wraps. -/
lemma sampleToInt_bounds (x : ℚ) :
    -32767 ≤ sampleToInt x ∧ sampleToInt x ≤ 32767 := by
  have hc1 : (-1 : ℚ) ≤ clampSample x := le_max_left _ _
  have hc2 : clampSample x ≤ 1 := max_le (by norm_num) (min_le_left _ _)
  have hy1 : (-32767 : ℚ) ≤ clampSample x * 32767 := by nlinarith
  have hy2 : clampSample x * 32767 ≤ 32767 := by nlinarith
  unfold sampleToInt ratTrunc
  split
  · next hpos =>
    constructor
    · have : (0 : ℤ) ≤ ⌊clampSample x * 32767⌋ := Int.floor_nonneg.mpr hpos
      omega
    · have : (⌊clampSample x * 32767⌋ : ℚ) ≤ 32767 :=
        le_trans (Int.floor_le _) hy2
      exact_mod_cast this
  · next hneg =>
    constructor
    · have : (-32767 : ℚ) ≤ (⌈clampSample x * 32767⌉ : ℚ) :=
        le_trans hy1 (Int.le_ceil _)
      exact_mod_cast this
    · have h0 : clampSample x * 32767 ≤ 0 := le_of_not_le hneg
      have : ⌈clampSample x * 32767⌉ ≤ 0 := Int.ceil_le.mpr (by exact_mod_cast h0)
      omega

/-- Round-trip of the little-endian signed 16-bit byte encoding. -/
lemma decodeI16_int16Bytes (i : ℤ) (h1 : -32768 ≤ i) (h2 : i ≤ 32767) :
    decodeI16 (int16Bytes i) = i := by
  unfold decodeI16 int16Bytes leVal
  simp only [List.foldr]
  rcases le_or_lt 0 i with hpos | hneg
  · have he : i % 65536 = i := by omega
    rw [he]
    have ht : (i.toNat : ℤ) = i := Int.toNat_of_nonneg hpos
    generalize hgt : i.toNat = t
    rw [hgt] at ht
    split <;> omega
  · have he : i % 65536 = i + 65536 := by omega
    rw [he]
    have ht : ((i + 65536).toNat : ℤ) = i + 65536 := Int.toNat_of_nonneg (by omega)
    generalize hgt : (i + 65536).toNat = t
    rw [hgt] at ht
    split <;> omega

end Bella

namespace Bella

/-! ## Claim C8: WAV container byte layout -/

/-- Normal form of the encoder output: the 44 header bytes written by
lines 343–355 of the source, followed by the flattened sample words. -/
lemma convert_unfold (samples : List ℚ) (rate : ℕ) :
    convertFloat32ArrayToWav samples rate =
      82 :: 73 :: 70 :: 70 ::
      ((36 + samples.length * 2) % 256) :: ((36 + samples.length * 2) / 256 % 256) ::
      ((36 + samples.length * 2) / 65536 % 256) ::
      ((36 + samples.length * 2) / 16777216 % 256) ::
      87 :: 65 :: 86 :: 69 ::
      102 :: 109 :: 116 :: 32 ::
      16 :: 0 :: 0 :: 0 ::
      1 :: 0 ::
      1 :: 0 ::
      (rate % 256) :: (rate / 256 % 256) :: (rate / 65536 % 256) ::
      (rate / 16777216 % 256) ::
      (rate * 2 % 256) :: (rate * 2 / 256 % 256) :: (rate * 2 / 65536 % 256) ::
      (rate * 2 / 16777216 % 256) ::
      2 :: 0 ::
      16 :: 0 ::
      100 :: 97 :: 116 :: 97 ::
      (samples.length * 2 % 256) :: (samples.length * 2 / 256 % 256) ::
      (samples.length * 2 / 65536 % 256) :: (samples.length * 2 / 16777216 % 256) ::
      (samples.map sampleBytes).flatten := rfl

/-- Little-endian 32-bit round trip below the wrap-around. -/
lemma leVal_u32le (n : ℕ) (h : n < 4294967296) : leVal (u32le n) = n := by
  simp only [leVal, u32le, List.foldr]
  omega

/-- C8: the encoder output is exactly `44 + 2·N` bytes; the header
carries, little-endian, "RIFF", the chunk size `36 + 2N`, "WAVE",
"fmt ", the format-chunk size 16, PCM format code 1, channel count 1,
the sample rate, the byte rate `2·sampleRate`, block align 2, 16 bits
per sample, "data" and the data size `2N`; and from offset 44 every
sample `i` is stored as the little-endian signed 16-bit encoding of its
clamped, scaled value.  (The size hypotheses keep the 32-bit header
fields below their `setUint32` wrap-around, as for any buffer the source
can allocate.) -/
theorem c8_wav_layout (samples : List ℚ) (rate : ℕ)
    (hN : 36 + 2 * samples.length < 4294967296) (hr : rate * 2 < 4294967296) :
    (convertFloat32ArrayToWav samples rate).length = 44 + 2 * samples.length ∧
    (convertFloat32ArrayToWav samples rate).take 4 = tagBytes "RIFF" ∧
    leVal (((convertFloat32ArrayToWav samples rate).drop 4).take 4) =
      36 + 2 * samples.length ∧
    ((convertFloat32ArrayToWav samples rate).drop 8).take 4 = tagBytes "WAVE" ∧
    ((convertFloat32ArrayToWav samples rate).drop 12).take 4 = tagBytes "fmt " ∧
    leVal (((convertFloat32ArrayToWav samples rate).drop 16).take 4) = 16 ∧
    leVal (((convertFloat32ArrayToWav samples rate).drop 20).take 2) = 1 ∧
    leVal (((convertFloat32ArrayToWav samples rate).drop 22).take 2) = 1 ∧
    leVal (((convertFloat32ArrayToWav samples rate).drop 24).take 4) = rate ∧
    leVal (((convertFloat32ArrayToWav samples rate).drop 28).take 4) = rate * 2 ∧
    leVal (((convertFloat32ArrayToWav samples rate).drop 32).take 2) = 2 ∧
    leVal (((convertFloat32ArrayToWav samples rate).drop 34).take 2) = 16 ∧
    ((convertFloat32ArrayToWav samples rate).drop 36).take 4 = tagBytes "data" ∧
    leVal (((convertFloat32ArrayToWav samples rate).drop 40).take 4) =
      2 * samples.length ∧
    (convertFloat32ArrayToWav samples rate).drop 44 =
      (samples.map sampleBytes).flatten ∧
    (∀ i : ℕ, ∀ h : i < samples.length,
      decodeI16 (((convertFloat32ArrayToWav samples rate).drop (44 + 2 * i)).take 2) =
        sampleToInt (samples.get ⟨i, h⟩)) := by
  have hdrop44 : (convertFloat32ArrayToWav samples rate).drop 44 =
      (samples.map sampleBytes).flatten := by
    rw [convert_unfold]
    rfl
  refine ⟨?_, ?_, ?_, ?_, ?_, ?_, ?_, ?_, ?_, ?_, ?_, ?_, ?_, ?_, hdrop44, ?_⟩
  · rw [convert_unfold]
    simp only [List.length_cons, flatten_sampleBytes_length]
    omega
  · rw [convert_unfold]
    rfl
  · have e : ((convertFloat32ArrayToWav samples rate).drop 4).take 4 =
        u32le (36 + samples.length * 2) := by
      rw [convert_unfold]
      rfl
    rw [e, leVal_u32le _ (by omega)]
    omega
  · rw [convert_unfold]
    rfl
  · rw [convert_unfold]
    rfl
  · rw [convert_unfold]
    rfl
  · rw [convert_unfold]
    rfl
  · rw [convert_unfold]
    rfl
  · have e : ((convertFloat32ArrayToWav samples rate).drop 24).take 4 =
        u32le rate := by
      rw [convert_unfold]
      rfl
    rw [e, leVal_u32le _ (by omega)]
  · have e : ((convertFloat32ArrayToWav samples rate).drop 28).take 4 =
        u32le (rate * 2) := by
      rw [convert_unfold]
      rfl
    rw [e, leVal_u32le _ (by omega)]
  · rw [convert_unfold]
    rfl
  · rw [convert_unfold]
    rfl
  · rw [convert_unfold]
    rfl
  · have e : ((convertFloat32ArrayToWav samples rate).drop 40).take 4 =
        u32le (samples.length * 2) := by
      rw [convert_unfold]
      rfl
    rw [e, leVal_u32le _ (by omega)]
    omega
  · intro i h
    have hd : (convertFloat32ArrayToWav samples rate).drop (44 + 2 * i) =
        ((samples.map sampleBytes).flatten).drop (2 * i) := by
      rw [← List.drop_drop, hdrop44]
    rw [hd, flatten_sampleBytes_get samples i h]
    have hb := sampleToInt_bounds (samples.get ⟨i, h⟩)
    exact decodeI16_int16Bytes _ (by omega) hb.2

/-- Witness for C8 at a concrete input: three samples at 16 kHz give a
50-byte buffer. -/
theorem c8_wav_layout_witness :
    (convertFloat32ArrayToWav [0, 1, -1] 16000).length =
      44 + 2 * ([0, 1, -1] : List ℚ).length :=
  (c8_wav_layout [0, 1, -1] 16000 (by norm_num) (by norm_num)).1


end Bella

namespace Bella

/-! ## Claim C9: per-sample clamping and rounding -/

/-- C9: every sample is clamped to [-1, 1] before scaling by 32767, so
the encoded integer never leaves the 16-bit range (its byte encoding
round-trips — no overflow or wrap); the encoded integer is within 1 of
the exact scaled value and within ±1 LSB of round-to-nearest; and the
out-of-range input `1.5` encodes to exactly the bytes of `1.0`. -/
theorem c9_sample_clamping (x : ℚ) :
    (-32767 ≤ sampleToInt x ∧ sampleToInt x ≤ 32767) ∧
    decodeI16 (sampleBytes x) = sampleToInt x ∧
    |(sampleToInt x : ℚ) - clampSample x * 32767| < 1 ∧
    |sampleToInt x - round (clampSample x * 32767)| ≤ 1 ∧
    sampleBytes (3 / 2) = sampleBytes 1 := by
  have hb := sampleToInt_bounds x
  have h3 : |(sampleToInt x : ℚ) - clampSample x * 32767| < 1 := by
    unfold sampleToInt ratTrunc
    split
    · rw [abs_sub_lt_iff]
      constructor <;>
        linarith [Int.floor_le (clampSample x * 32767),
          Int.sub_one_lt_floor (clampSample x * 32767)]
    · rw [abs_sub_lt_iff]
      constructor <;>
        linarith [Int.le_ceil (clampSample x * 32767),
          Int.ceil_lt_add_one (clampSample x * 32767)]
  refine ⟨hb, decodeI16_int16Bytes _ (by omega) hb.2, h3, ?_, ?_⟩
  · have habs := abs_sub_round (clampSample x * 32767)
    have hcast : |((sampleToInt x - round (clampSample x * 32767) : ℤ) : ℚ)| < 2 := by
      push_cast
      calc |(sampleToInt x : ℚ) - (round (clampSample x * 32767) : ℤ)| ≤
          |(sampleToInt x : ℚ) - clampSample x * 32767| +
            |clampSample x * 32767 - (round (clampSample x * 32767) : ℤ)| :=
            abs_sub_le _ _ _
        _ < 1 + 1 / 2 := by
            have := abs_sub_round (clampSample x * 32767)
            exact add_lt_add_of_lt_of_le h3 this
        _ < 2 := by norm_num
    have hd2 : |sampleToInt x - round (clampSample x * 32767)| < 2 := by
      exact_mod_cast hcast
    have h4 := abs_lt.mp hd2
    rw [abs_le]
    omega
  · have hc : clampSample (3 / 2 : ℚ) = 1 := by
      unfold clampSample
      norm_num [min_def, max_def]
    have hc1 : clampSample (1 : ℚ) = 1 := by
      unfold clampSample
      norm_num [min_def, max_def]
    have h15 : sampleToInt (3 / 2 : ℚ) = 32767 := by
      unfold sampleToInt ratTrunc
      rw [hc]
      norm_num
    have h10 : sampleToInt (1 : ℚ) = 32767 := by
      unfold sampleToInt ratTrunc
      rw [hc1]
      norm_num
    unfold sampleBytes
    rw [h15, h10]

end Bella
